import Mathlib

/-!
Shallow embedding of the user-session controller in
src/lib/contexts/user-context.tsx (repository aixpanse/iamclient).

The controller owns three pieces of observable state: the resolved
user (or null), the isLoading flag, and the fe-chat-session cookie.
Its four exposed operations (login, logout, refreshUser,
setUserFromSession) plus the mount-time initializeUser are embedded as
pure state transformers.  The network is an oracle (Env) mapping the
session header of each endpoint call to its outcome; a transport error
that makes fetch reject is the dedicated outcome constructor, a
resolved response carries the ok flag and the (possibly unparseable)
body.  Each operation returns, besides the final state, the list of
HTTP requests it issued, the list of states observable at its await
suspension points (the only moments the single-threaded runtime lets
an observer run mid-operation), and the navigation side effects.
JavaScript string truthiness (empty string is falsy) is modelled
explicitly, since the source guards tokens with it.
-/

/-- The User record of src/lib/types/auth.ts: opaque id, timestamps,
email, optional display name, email-verification flag. -/
structure User where
  id : String
  createdAt : String
  updatedAt : String
  email : String
  displayName : Option String
  emailVerification : Bool
deriving Repr, DecidableEq

/-- A successfully parsed JSON body of GET /api/account: it may or may
not carry a user field (data.user). -/
structure AccountBody where
  user : Option User
deriving Repr, DecidableEq

/-- Outcome of the fetch to GET /api/account: the promise rejects
(transport error), or a response arrives with its ok flag and a body
that either parses to JSON (some) or makes res.json() throw (none). -/
inductive FetchOutcome where
  | throws : FetchOutcome
  | response (ok : Bool) (body : Option AccountBody) : FetchOutcome
deriving Repr, DecidableEq

/-- Outcome of the fetch to POST /api/signout: rejection, or a
response with an ok flag and a body, neither of which the source ever
reads. -/
inductive SignoutOutcome where
  | throws : SignoutOutcome
  | response (ok : Bool) (body : String) : SignoutOutcome
deriving Repr, DecidableEq

/-- An HTTP request the controller can issue.  getAccount carries the
session header; postSignout carries the session header and the
sessionId field of the JSON body (always the string current in the
source). -/
inductive HttpRequest where
  | getAccount (session : String) : HttpRequest
  | postSignout (session : String) (sessionId : String) : HttpRequest
deriving Repr, DecidableEq

/-- A navigation side effect: router.push or router.replace with the
target url. -/
inductive NavAction where
  | push (url : String) : NavAction
  | replace (url : String) : NavAction
deriving Repr, DecidableEq

/-- The environment: the configured IAM base url
(process.env.NEXT_PUBLIC_IAM_URL), the current page origin
(window.location.origin), and the network oracle giving each
endpoint's outcome as a function of the session header sent. -/
structure Env where
  iamUrl : String
  origin : String
  accountOutcome : String → FetchOutcome
  signoutOutcome : String → SignoutOutcome

/-- The provider's observable state: the user useState, the isLoading
useState, and the fe-chat-session cookie (none = cookie absent). -/
structure ControllerState where
  user : Option User
  isLoading : Bool
  cookie : Option String
deriving Repr, DecidableEq

/-- JavaScript truthiness of a string: truthy iff non-empty. -/
def truthy (s : String) : Bool := !(s == "")

/-- JavaScript a or-else b on an optional string: the left operand
when it is present and truthy, otherwise the default. -/
def jsOr (v : Option String) (d : String) : String :=
  match v with
  | some s => if truthy s then s else d
  | none => d

/-- The session local of fetchUser: sessionToken or-else the cookie
(getCookie cast to string, i.e. possibly undefined).  none models the
undefined that the later !session guard catches. -/
def sessionOrCookie (sessionToken : Option String) (cookie : Option String) :
    Option String :=
  match sessionToken with
  | some s => if truthy s then some s else cookie
  | none => cookie

/-- The truthiness test if (session) applied to a cookie read: yields
the token exactly when the cookie exists and is non-empty. -/
def truthyCookie (c : Option String) : Option String :=
  match c with
  | some t => if truthy t then some t else none
  | none => none

/-- The cookies-next setCookie write as it affects the single
fe-chat-session jar entry: a non-positive maxAge deletes the cookie,
otherwise the value is stored verbatim (also when empty). -/
def setCookie (value : String) (maxAge : Option Int) : Option String :=
  match maxAge with
  | some a => if a ≤ 0 then none else some value
  | none => some value

/-- The body of fetchUser's try block, before the catch: it can throw
(Except.error, carrying the message) at the explicit
throw new Error, at a rejecting fetch, or at a failing res.json().
Alongside the result, the list of requests issued. -/
def fetchUserTry (env : Env) (sessionToken : Option String)
    (cookie : Option String) : Except String (Option User) × List HttpRequest :=
  match sessionOrCookie sessionToken cookie with
  | none => (Except.ok none, [])
  | some session =>
    if !truthy session then (Except.ok none, [])
    else
      let req := HttpRequest.getAccount session
      match env.accountOutcome session with
      | FetchOutcome.throws => (Except.error "fetch rejected", [req])
      | FetchOutcome.response ok body =>
        if !ok then (Except.error "Failed to fetch user", [req])
        else
          match body with
          | none => (Except.error "res.json threw", [req])
          | some b => (Except.ok b.user, [req])

/-- fetchUser of the source: the try body with its catch, which logs
and returns null, so the helper never throws to its caller. -/
def fetchUser (env : Env) (sessionToken : Option String)
    (cookie : Option String) : Option User × List HttpRequest :=
  let r := fetchUserTry env sessionToken cookie
  (match r.1 with
   | Except.ok v => v
   | Except.error _ => none, r.2)

/-- The result of running one controller operation: the final state,
the states observable while the operation was suspended at an await,
the HTTP requests issued, and the navigations performed. -/
structure OpResult where
  state : ControllerState
  midStates : List ControllerState
  requests : List HttpRequest
  nav : List NavAction
deriving Repr, DecidableEq

/-- login of the source: a single synchronous router.push to the IAM
sign-in page with redirectUrl set to the argument or-else the page
origin.  No state write, no fetch, no await suspension. -/
def login (env : Env) (s : ControllerState) (redirectUrl : Option String) :
    OpResult :=
  { state := s
    midStates := []
    requests := []
    nav := [NavAction.push
      (env.iamUrl ++ "/auth/signin?redirectUrl=" ++ jsOr redirectUrl env.origin)] }

/-- logout of the source.  It sets isLoading, reads the cookie, and
when the token is truthy awaits the signout POST; then, still inside
the try, clears user and cookie and optionally navigates; the catch
only logs, the finally resets isLoading.  A rejecting fetch therefore
jumps over the clearing statements: that control flow is kept exactly. -/
def logout (env : Env) (s : ControllerState) (redirectUrl : Option String) :
    OpResult :=
  let s1 : ControllerState := { s with isLoading := true }
  let navFor : List NavAction :=
    match redirectUrl with
    | some r => if truthy r then [NavAction.replace (jsOr (some r) env.origin)] else []
    | none => []
  match truthyCookie s1.cookie with
  | some session =>
    match env.signoutOutcome session with
    | SignoutOutcome.throws =>
      { state := { s1 with isLoading := false }
        midStates := [s1, s1]
        requests := [HttpRequest.postSignout session "current"]
        nav := [] }
    | SignoutOutcome.response _ _ =>
      { state := { s1 with user := none, cookie := setCookie "" (some (-1)), isLoading := false }
        midStates := [s1, s1]
        requests := [HttpRequest.postSignout session "current"]
        nav := navFor }
  | none =>
    { state := { s1 with user := none, cookie := setCookie "" (some (-1)), isLoading := false }
      midStates := [s1]
      requests := []
      nav := navFor }

/-- refreshUser of the source: set isLoading, await fetchUser, write
its result into user, reset isLoading in the finally.  fetchUser
swallows its own errors, so the catch branch is unreachable. -/
def refreshUser (env : Env) (s : ControllerState)
    (sessionToken : Option String) : OpResult :=
  let s1 : ControllerState := { s with isLoading := true }
  let fr := fetchUser env sessionToken s1.cookie
  { state := { s1 with user := fr.1, isLoading := false }
    midStates := [s1, s1]
    requests := fr.2
    nav := [] }

/-- setUserFromSession of the source: set isLoading, persist the token
to the cookie via setCookie with no options, await fetchUser with the
token as override (the cookie now holds the token), write the result
into user, reset isLoading in the finally. -/
def setUserFromSession (env : Env) (s : ControllerState) (session : String) :
    OpResult :=
  let s1 : ControllerState := { s with isLoading := true }
  let s2 : ControllerState := { s1 with cookie := setCookie session none }
  let fr := fetchUser env (some session) s2.cookie
  { state := { s2 with user := fr.1, isLoading := false }
    midStates := [s1, s2, s2]
    requests := fr.2
    nav := [] }

/-- initializeUser of the mount effect: set isLoading, resolve with no
override, write the result, reset isLoading in the finally. -/
def initializeUser (env : Env) (s : ControllerState) : OpResult :=
  let s1 : ControllerState := { s with isLoading := true }
  let fr := fetchUser env none s1.cookie
  { state := { s1 with user := fr.1, isLoading := false }
    midStates := [s1, s1]
    requests := fr.2
    nav := [] }

/-- Mounting the provider: useState gives user = null and
isLoading = true, the cookie jar holds whatever persisted, and the
mount effect runs initializeUser. -/
def mountProvider (env : Env) (cookie : Option String) : OpResult :=
  initializeUser env { user := none, isLoading := true, cookie := cookie }

/-- A concrete user record for closed instances. -/
def testUser : User := ⟨"1", "c1", "u1", "a@b.com", none, true⟩

/-- An environment whose account endpoint always answers ok with a
body carrying testUser and whose signout endpoint always answers ok. -/
def envOk : Env :=
  { iamUrl := "http://iam"
    origin := "http://app"
    accountOutcome := fun _ => FetchOutcome.response true (some ⟨some testUser⟩)
    signoutOutcome := fun _ => SignoutOutcome.response true "" }

/-- An environment whose every fetch rejects with a transport error. -/
def envThrow : Env :=
  { iamUrl := "http://iam"
    origin := "http://app"
    accountOutcome := fun _ => FetchOutcome.throws
    signoutOutcome := fun _ => SignoutOutcome.throws }

/-- An environment whose account endpoint always answers a non-ok
status (HTTP 401) and whose signout endpoint answers HTTP 500. -/
def env401 : Env :=
  { iamUrl := "http://iam"
    origin := "http://app"
    accountOutcome := fun _ => FetchOutcome.response false none
    signoutOutcome := fun _ => SignoutOutcome.response false "server error" }


/-- Every state snapshot observable at a suspension point of logout has
isLoading set: the first write of the operation is setIsLoading(true)
and nothing resets it before the finally block. -/
theorem logout_mid_loading (env : Env) (s : ControllerState) (r : Option String) :
    ∀ m ∈ (logout env s r).midStates, m.isLoading = true := by
  obtain ⟨u, l, c⟩ := s
  rcases hc : truthyCookie c with _ | session
  · simp [logout, hc]
  · rcases ho : env.signoutOutcome session with _ | ⟨ok, b⟩ <;> simp [logout, hc, ho]

/-- The finally block of logout leaves isLoading false on every path. -/
theorem logout_final_notLoading (env : Env) (s : ControllerState) (r : Option String) :
    (logout env s r).state.isLoading = false := by
  obtain ⟨u, l, c⟩ := s
  rcases hc : truthyCookie c with _ | session
  · simp [logout, hc]
  · rcases ho : env.signoutOutcome session with _ | ⟨ok, b⟩ <;> simp [logout, hc, ho]

/-- Every suspension-point snapshot of refreshUser has isLoading set. -/
theorem refreshUser_mid_loading (env : Env) (s : ControllerState) (ov : Option String) :
    ∀ m ∈ (refreshUser env s ov).midStates, m.isLoading = true := by
  intro m hm
  simp [refreshUser] at hm
  subst hm
  rfl

/-- Every suspension-point snapshot of setUserFromSession has
isLoading set. -/
theorem setUserFromSession_mid_loading (env : Env) (s : ControllerState) (tok : String) :
    ∀ m ∈ (setUserFromSession env s tok).midStates, m.isLoading = true := by
  intro m hm
  simp [setUserFromSession] at hm
  rcases hm with hm | hm <;> subst hm <;> rfl

/-- Claim C1: the claim says every logout ends with user = null and the
fe-chat-session cookie cleared, for a successful signout status, a
non-success status such as 500, and a transport error alike.  The code
violates the transport-error case: the clearing statements sit inside
the try block after the awaited fetch, so a rejecting fetch jumps to
the catch and leaves user and cookie untouched.  This theorem
evaluates logout at the failing input (stored token, rejecting fetch)
and, for contrast, at an ok and a 500 response where the claim does
hold. -/
theorem logout_network_error_keeps_session :
    (logout envThrow ⟨some testUser, false, some "tok"⟩ none).state.user = some testUser ∧
    (logout envThrow ⟨some testUser, false, some "tok"⟩ none).state.cookie = some "tok" ∧
    (logout env401 ⟨some testUser, false, some "tok"⟩ none).state.user = none ∧
    (logout env401 ⟨some testUser, false, some "tok"⟩ none).state.cookie = none ∧
    (logout envOk ⟨some testUser, false, some "tok"⟩ none).state.user = none ∧
    (logout envOk ⟨some testUser, false, some "tok"⟩ none).state.cookie = none := by
  decide

/-- Claim C2 counterexample: login is one of the four exposed
operations, yet its final step does not set isLoading to false — from
the freshly mounted state, whose isLoading is true, a login call
completes with isLoading still true. -/
theorem login_ignores_isLoading_counterexample :
    ¬ ((login envOk ⟨none, true, none⟩ none).state.isLoading = false) := by
  decide

/-- Claim C2 amended: for logout, refreshUser and setUserFromSession
every state observable at a mid-operation suspension point has
isLoading = true and the operation's final step resets isLoading to
false; login, the fourth operation, performs no suspension and leaves
the controller state, isLoading included, unchanged. -/
theorem ops_isLoading_invariant (env : Env) (s : ControllerState)
    (r ov : Option String) (tok : String) :
    ((∀ m ∈ (logout env s r).midStates, m.isLoading = true) ∧
      (logout env s r).state.isLoading = false) ∧
    ((∀ m ∈ (refreshUser env s ov).midStates, m.isLoading = true) ∧
      (refreshUser env s ov).state.isLoading = false) ∧
    ((∀ m ∈ (setUserFromSession env s tok).midStates, m.isLoading = true) ∧
      (setUserFromSession env s tok).state.isLoading = false) ∧
    ((login env s r).midStates = [] ∧ (login env s r).state = s) :=
  ⟨⟨logout_mid_loading env s r, logout_final_notLoading env s r⟩,
   ⟨refreshUser_mid_loading env s ov, rfl⟩,
   ⟨setUserFromSession_mid_loading env s tok, rfl⟩,
   rfl, rfl⟩

/-- Concrete instance of the C2 invariant: the state reached right
after logout's setIsLoading(true) is observable at its awaits and has
isLoading = true. -/
theorem ops_isLoading_invariant_witness :
    ((⟨none, true, some "tok"⟩ : ControllerState) ∈
      (logout envOk ⟨none, false, some "tok"⟩ none).midStates) ∧
    (⟨none, true, some "tok"⟩ : ControllerState).isLoading = true :=
  ⟨by decide,
   (ops_isLoading_invariant envOk ⟨none, false, some "tok"⟩ none none "t").1.1
     ⟨none, true, some "tok"⟩ (by decide)⟩

/-- Claim C3: fetchUser never lets an exception reach its caller and
collapses every failure to no user — a rejecting fetch, a non-ok
status, a body that does not parse, and a parsed body without a user
field all yield none, while an ok response whose body carries a user
field yields exactly that user (b.user, which is also none when the
field is absent). -/
theorem fetchUser_collapses_failures (env : Env)
    (sessionToken cookie : Option String) (tok : String)
    (hs : sessionOrCookie sessionToken cookie = some tok)
    (ht : truthy tok = true) :
    (env.accountOutcome tok = FetchOutcome.throws →
      (fetchUser env sessionToken cookie).1 = none) ∧
    (∀ body, env.accountOutcome tok = FetchOutcome.response false body →
      (fetchUser env sessionToken cookie).1 = none) ∧
    (env.accountOutcome tok = FetchOutcome.response true none →
      (fetchUser env sessionToken cookie).1 = none) ∧
    (∀ b, env.accountOutcome tok = FetchOutcome.response true (some b) →
      (fetchUser env sessionToken cookie).1 = b.user) ∧
    (∀ e, (fetchUserTry env sessionToken cookie).1 = Except.error e →
      (fetchUser env sessionToken cookie).1 = none) := by
  refine ⟨?_, ?_, ?_, ?_, ?_⟩
  · intro h; simp [fetchUser, fetchUserTry, hs, ht, h]
  · intro body h; simp [fetchUser, fetchUserTry, hs, ht, h]
  · intro h; simp [fetchUser, fetchUserTry, hs, ht, h]
  · intro b h; simp [fetchUser, fetchUserTry, hs, ht, h]
  · intro e h; simp [fetchUser, h]

/-- Concrete instance of C3: with the account endpoint answering 401,
resolution of token tok yields no user. -/
theorem fetchUser_collapses_failures_witness :
    sessionOrCookie (some "tok") none = some "tok" ∧ truthy "tok" = true ∧
    (fetchUser env401 (some "tok") none).1 = none :=
  ⟨by decide, by decide,
   (fetchUser_collapses_failures env401 (some "tok") none "tok" (by decide)
     (by decide)).2.1 none rfl⟩

/-- Claim C4: after setUserFromSession T completes with a resolution
that got an ok, parseable response, the cookie holds T and user equals
the user field the response reported (none when it reported none).
T is a session token, hence non-empty per the data model. -/
theorem setUserFromSession_persists_and_resolves (env : Env)
    (s : ControllerState) (T : String) (b : AccountBody)
    (hT : truthy T = true)
    (h : env.accountOutcome T = FetchOutcome.response true (some b)) :
    (setUserFromSession env s T).state.cookie = some T ∧
    (setUserFromSession env s T).state.user = b.user := by
  obtain ⟨u, l, c⟩ := s
  constructor
  · rfl
  · simp [setUserFromSession, fetchUser, fetchUserTry, sessionOrCookie, setCookie, hT, h]

/-- Concrete instance of C4: adopting token abc against an endpoint
reporting testUser stores abc and resolves testUser. -/
theorem setUserFromSession_persists_and_resolves_witness :
    truthy "abc" = true ∧
    envOk.accountOutcome "abc" = FetchOutcome.response true (some ⟨some testUser⟩) ∧
    ((setUserFromSession envOk ⟨none, false, none⟩ "abc").state.cookie = some "abc" ∧
     (setUserFromSession envOk ⟨none, false, none⟩ "abc").state.user = some testUser) :=
  ⟨by decide, rfl,
   setUserFromSession_persists_and_resolves envOk ⟨none, false, none⟩ "abc"
     ⟨some testUser⟩ (by decide) rfl⟩

/-- Claim C5: mounting the provider with no stored cookie resolves to
no user and issues zero HTTP requests, whatever the network would
answer. -/
theorem mount_no_token_no_requests (env : Env) :
    (mountProvider env none).state.user = none ∧
    (mountProvider env none).requests = [] :=
  ⟨rfl, rfl⟩

/-- Claim C6: logout issues exactly one POST to the signout endpoint,
with the stored token in the session header and sessionId current in
the body, precisely when a (truthy) token is stored; with no token it
issues no request; and the response is never inspected — replacing the
signout response by any other non-rejecting response leaves the whole
operation result unchanged. -/
theorem logout_signout_request_iff_token (env : Env) (s : ControllerState)
    (r : Option String) :
    (∀ tok, truthyCookie s.cookie = some tok →
      (logout env s r).requests = [HttpRequest.postSignout tok "current"]) ∧
    (truthyCookie s.cookie = none → (logout env s r).requests = []) ∧
    (∀ ok₁ b₁ ok₂ b₂,
      logout { env with signoutOutcome := fun _ => SignoutOutcome.response ok₁ b₁ } s r =
      logout { env with signoutOutcome := fun _ => SignoutOutcome.response ok₂ b₂ } s r) := by
  obtain ⟨u, l, c⟩ := s
  refine ⟨?_, ?_, ?_⟩
  · intro tok htok
    rcases ho : env.signoutOutcome tok with _ | ⟨ok, b⟩ <;> simp [logout, htok, ho]
  · intro h
    simp [logout, h]
  · intro ok₁ b₁ ok₂ b₂
    rcases hc : truthyCookie c with _ | session <;> simp [logout, hc]

/-- Concrete instance of C6: with stored token tok, logout issues the
single signout POST carrying it. -/
theorem logout_signout_request_iff_token_witness :
    truthyCookie (some "tok") = some "tok" ∧
    (logout envOk ⟨none, false, some "tok"⟩ none).requests =
      [HttpRequest.postSignout "tok" "current"] :=
  ⟨by decide,
   (logout_signout_request_iff_token envOk ⟨none, false, some "tok"⟩ none).1 "tok"
     (by decide)⟩

/-- Claim C7 counterexample: calling login with the supplied target
being the empty string does not navigate with redirectUrl set to that
supplied target — the or-else coercion substitutes the page origin. -/
theorem login_empty_target_counterexample :
    (login envOk ⟨none, false, none⟩ (some "")).nav ≠
      [NavAction.push ("http://iam" ++ "/auth/signin?redirectUrl=" ++ "")] := by
  decide

/-- Claim C7 amended: login issues no HTTP request, leaves the
controller state (user and isLoading) unchanged, has no suspension
point, and its only effect is a router.push to the IAM sign-in page
with redirectUrl set to the supplied target when that target is
non-empty, and to the page origin when the target is absent or the
empty string. -/
theorem login_frame_and_navigation (env : Env) (s : ControllerState)
    (target : Option String) :
    (login env s target).requests = [] ∧
    (login env s target).state = s ∧
    (login env s target).midStates = [] ∧
    (∀ t, target = some t → truthy t = true →
      (login env s target).nav =
        [NavAction.push (env.iamUrl ++ "/auth/signin?redirectUrl=" ++ t)]) ∧
    ((target = none ∨ target = some "") →
      (login env s target).nav =
        [NavAction.push (env.iamUrl ++ "/auth/signin?redirectUrl=" ++ env.origin)]) := by
  refine ⟨rfl, rfl, rfl, ?_, ?_⟩
  · intro t ht htr
    subst ht
    simp [login, jsOr, htr]
  · rintro (h | h) <;> subst h <;> simp [login, jsOr, truthy]

/-- Concrete instance of C7: login with a non-empty target navigates
to the sign-in page carrying exactly that target. -/
theorem login_frame_and_navigation_witness :
    truthy "http://x" = true ∧
    (login envOk ⟨none, false, none⟩ (some "http://x")).nav =
      [NavAction.push ("http://iam" ++ "/auth/signin?redirectUrl=" ++ "http://x")] :=
  ⟨by decide,
   (login_frame_and_navigation envOk ⟨none, false, none⟩ (some "http://x")).2.2.2.1
     "http://x" rfl (by decide)⟩

/-- Claim C8: refreshUser does not touch the stored cookie, and a
second refreshUser against the same network oracle (same stored token,
same server-side answer) ends with the same user as the first — the
second call does not change the established result. -/
theorem refreshUser_idempotent (env : Env) (s : ControllerState) :
    (refreshUser env s none).state.cookie = s.cookie ∧
    (refreshUser env (refreshUser env s none).state none).state.user =
      (refreshUser env s none).state.user :=
  ⟨rfl, rfl⟩

/-- Claim C9: with no truthy token stored, logout cannot enter its
catch branch — it makes no network request whatever the oracle would
answer, and always ends with user cleared, the cookie deleted by the
negative-maxAge setCookie, and isLoading reset. -/
theorem logout_without_token (env : Env) (s : ControllerState)
    (r : Option String) (h : truthyCookie s.cookie = none) :
    (logout env s r).requests = [] ∧
    (logout env s r).state.user = none ∧
    (logout env s r).state.cookie = setCookie "" (some (-1)) ∧
    (logout env s r).state.cookie = none ∧
    (logout env s r).state.isLoading = false := by
  obtain ⟨u, l, c⟩ := s
  have h2 : truthyCookie c = none := h
  refine ⟨?_, ?_, ?_, ?_, ?_⟩ <;> simp [logout, h2, setCookie]

/-- Concrete instance of C9: logout from an absent cookie under an
always-rejecting network still clears everything and sends nothing. -/
theorem logout_without_token_witness :
    truthyCookie (ControllerState.cookie ⟨some testUser, false, none⟩) = none ∧
    ((logout envThrow ⟨some testUser, false, none⟩ none).requests = [] ∧
     (logout envThrow ⟨some testUser, false, none⟩ none).state.user = none) :=
  ⟨rfl,
   (logout_without_token envThrow ⟨some testUser, false, none⟩ none rfl).1,
   (logout_without_token envThrow ⟨some testUser, false, none⟩ none rfl).2.1⟩

/-- Claim C10: setUserFromSession with the empty-string token stores
the empty string in the cookie, but resolution treats it as absent
(empty string is falsy), so the call ends with no user and issues no
HTTP request, whatever the oracle. -/
theorem setUserFromSession_empty_token (env : Env) (s : ControllerState) :
    (setUserFromSession env s "").state.cookie = some "" ∧
    (setUserFromSession env s "").state.user = none ∧
    (setUserFromSession env s "").requests = [] :=
  ⟨rfl, rfl, rfl⟩
